import Mathlib

/-!
Shallow embedding of the turn-handling state machine of
`src/backend/app/graph.py` (the final draft of the orchestrator, the one
`main.py` imports), together with proofs about the claims on it.

The language model and the SQLite database are external oracles: an `Env`
carries the completion each model call returns and the result the database
gives to an executed query.  The LangGraph nodes become functions on the
`St` record (the `State` TypedDict), the conditional edges become the
routing functions, and the compiled graph becomes a `step` function on
`Node × St` iterated by `run`.
-/

namespace HospitalAgent

/-- Whitespace as Python's `str.strip` (and the regex class `\s`) treats the
characters that occur in this code base. -/
def isWsp (c : Char) : Bool := c == ' ' || c == '\t' || c == '\n' || c == '\r'

/-- Python `str.upper` (character-wise; the source only feeds ASCII). -/
def upperChars (s : List Char) : List Char := s.map Char.toUpper

/-- Python `str.strip()`. -/
def stripChars (s : List Char) : List Char :=
  ((s.dropWhile isWsp).reverse.dropWhile isWsp).reverse

/-- Python `s.startswith(pat)`: first argument the string, second the pattern. -/
def startsWithCh : List Char → List Char → Bool
  | _, [] => true
  | [], _ :: _ => false
  | c :: cs, p :: ps => c == p && startsWithCh cs ps

/-- Python `pat in s` (substring containment). -/
def containsSub : List Char → List Char → Bool
  | [], pat => startsWithCh [] pat
  | c :: rest, pat => startsWithCh (c :: rest) pat || containsSub rest pat

/-- Python `s.find(pat)` restricted to the found case: index of the first
occurrence, `none` when absent (the source guards every use with `in`). -/
def findSubIdx : List Char → List Char → Option Nat
  | [], pat => if startsWithCh [] pat then some 0 else none
  | c :: rest, pat =>
    if startsWithCh (c :: rest) pat then some 0
    else (findSubIdx rest pat).map (· + 1)

/-- Python `s.replace(pat, "")` for a non-empty pattern `p :: ps`: scan left
to right, delete each non-overlapping occurrence.  The extra `Nat` is fuel
(introduced only so the recursion is structural and kernel-reducible); it is
initialised to the length of the string and never runs out. -/
def removeAllAux (p : Char) (ps : List Char) : Nat → List Char → List Char
  | _, [] => []
  | 0, s => s
  | n + 1, c :: rest =>
    if c == p && startsWithCh rest ps then removeAllAux p ps n (rest.drop ps.length)
    else c :: removeAllAux p ps n rest

/-- Python `s.replace(pat, "")` (every replacement in the source deletes). -/
def removeAll (pat s : List Char) : List Char :=
  match pat with
  | [] => s
  | p :: ps => removeAllAux p ps s.length s

/-- Value of a decimal digit run (Python `int` on the regex capture). -/
def digitsVal (ds : List Char) : Nat :=
  ds.foldl (fun a c => 10 * a + (c.toNat - 48)) 0

/-- One anchored attempt of the regex `LIMIT\s+(\d+)` at the head of `s`. -/
def matchLimitAt (s : List Char) : Option Nat :=
  if startsWithCh s ("LIMIT".data) then
    let r := s.drop 5
    let ws := r.takeWhile isWsp
    if ws.isEmpty then none
    else
      let ds := (r.drop ws.length).takeWhile Char.isDigit
      if ds.isEmpty then none else some (digitsVal ds)
  else none

/-- Python `re.search(r'LIMIT\s+(\d+)', s)` returning `int(group(1))`:
leftmost position where the whole pattern matches. -/
def limitScan : List Char → Option Nat
  | [] => none
  | c :: rest =>
    match matchLimitAt (c :: rest) with
    | some n => some n
    | none => limitScan rest

/-- Everything after the first occurrence of `sep`, `none` when absent
(Python `s.split(sep, 1)[1]` guarded by `sep in s`). -/
def afterFirst (sep : Char) : List Char → Option (List Char)
  | [] => none
  | c :: rest => if c == sep then some rest else afterFirst sep rest

/-- String-level wrappers (the state fields are `String`s). -/
def pyStrip (s : String) : String := ⟨stripChars s.data⟩

def pyUpper (s : String) : String := ⟨upperChars s.data⟩

def pyStartsWith (s pat : String) : Bool := startsWithCh s.data pat.data

def pyContains (s pat : String) : Bool := containsSub s.data pat.data

def pyRemove (s pat : String) : String := ⟨removeAll pat.data s.data⟩

/-- The `State` TypedDict of `graph.py` (the message list keeps only the
text content of each message; `error` and `db_result` are `None`-able in the
source, hence `Option`). -/
structure St where
  messages : List String
  sql_query : String
  db_result : Option String
  error : Option String
  retry_count : Nat
  intent : String
  router_remarks : String
  last_limit : Nat
  last_offset : Nat
  last_sql : String
deriving DecidableEq, Repr

/-- A session's turn state before anything was ever set: the `state.get`
defaults of the source (`last_limit` defaults to 5, offsets and strings
empty). -/
def st0 : St :=
  { messages := []
    sql_query := ""
    db_result := none
    error := none
    retry_count := 0
    intent := ""
    router_remarks := ""
    last_limit := 5
    last_offset := 0
    last_sql := "" }

/-- The nodes of the compiled LangGraph, plus `start` (the `START` edge
source) and `done` (`END`). -/
inductive Node where
  | start
  | classifyIntent
  | directResponse
  | generateSql
  | executeSql
  | repairSql
  | synthesize
  | synthesizeFailure
  | done
deriving DecidableEq, Repr

/-- The external oracles of one turn: the completion of each LLM call
(`repairOut` indexed by the retry counter at the time of the call) and the
database's answer to a query that reaches `cursor.execute`. -/
structure Env where
  classOut : String
  genOut : String
  repairOut : Nat → String
  dbExec : String → Except String String
  synthOut : String

/-- `clean_res = response.split(":", 1)[1].strip() if ":" in response else response`. -/
def cleanAfterColon (response : String) : String :=
  match afterFirst ':' response.data with
  | some rest => ⟨stripChars rest⟩
  | none => response

/-- The fallback reply of the classifier's final `else` branch. -/
def fallbackReply : String :=
  "I didn't quite catch that. Are you looking for hospital information?"

/-- `classify_intent_node` of `graph.py` (lines 31-80). -/
def classify_intent_node (classOut : String) (s : St) : St :=
  let response := pyStrip classOut
  let ru := pyUpper response
  if pyStartsWith ru "GREETING" then
    { s with intent := "direct", db_result := some (cleanAfterColon response) }
  else if pyStartsWith ru "HANDOFF" then
    { s with intent := "handoff", db_result := some (cleanAfterColon response) }
  else if pyStartsWith ru "UNCLEAR" then
    { s with intent := "direct", db_result := some (cleanAfterColon response) }
  else if pyStartsWith ru "REJECT" then
    { s with intent := "direct", db_result := some (cleanAfterColon response) }
  else if pyStartsWith ru "PAGINATION" then
    { s with intent := "search", router_remarks := "PAGINATION" }
  else if pyStartsWith ru "SEARCH" then
    let remarks :=
      match afterFirst '|' response.data with
      | some rest => String.mk (stripChars rest)
      | none => "Limit to 5 results."
    { s with intent := "search", router_remarks := remarks }
  else
    { s with intent := "direct", db_result := some fallbackReply }

/-- `direct_response_node`: appends `AIMessage(content=state["db_result"])`. -/
def direct_response_node (s : St) : St :=
  { s with messages := s.messages ++ [s.db_result.getD ""] }

/-- The post-processing line of `generate_sql_node`:
`response.content.replace("```sql", "").replace("```", "").replace("ite", "").strip()`. -/
def cleanGenSql (content : String) : String :=
  pyStrip (pyRemove (pyRemove (pyRemove content "```sql") "```") "ite")

/-- `if "SELECT" in sql.upper(): sql = sql[sql.upper().find("SELECT"):]`. -/
def sliceFromSelect (sql : String) : String :=
  match findSubIdx (pyUpper sql).data ("SELECT".data) with
  | some i => ⟨sql.data.drop i⟩
  | none => sql

/-- `is_pagination = "PAGINATION" in remarks.strip().upper()`. -/
def pagSignal (remarks : String) : Bool :=
  pyContains (pyUpper (pyStrip remarks)) "PAGINATION"

/-- The clause the Python verification appends when the model output has no
LIMIT: `f" LIMIT {l} OFFSET {o}"` on the pagination branch, `f" LIMIT {l}"`
otherwise. -/
def limitClause (isPag : Bool) (lim off : Nat) : String :=
  if isPag then " LIMIT " ++ toString lim ++ " OFFSET " ++ toString off
  else " LIMIT " ++ toString lim

/-- `generate_sql_node` of `graph.py` (lines 89-162).  The prompt strings it
builds only reach the model, whose completion is the `genOut` oracle. -/
def generate_sql_node (genOut : String) (s : St) : St :=
  let remarks := s.router_remarks
  let currentLimit := s.last_limit
  let lastSql := s.last_sql
  let isPag := pagSignal remarks
  let currentOffset :=
    if isPag && !(lastSql == "") then s.last_offset + currentLimit else 0
  let sql0 := cleanGenSql genOut
  if sql0 == "CLARIFY" then
    { s with sql_query := "CLARIFY", error := none, retry_count := 0 }
  else
    let sql1 := sliceFromSelect sql0
    let sql2 :=
      if !(pyContains (pyUpper sql1) "LIMIT") then
        sql1 ++ limitClause isPag currentLimit currentOffset
      else sql1
    let newLimit :=
      match limitScan (pyUpper sql2).data with
      | some n => n
      | none => currentLimit
    { s with sql_query := sql2
             error := none
             retry_count := 0
             last_limit := newLimit
             last_offset := currentOffset
             last_sql := sql2 }

/-- The error text of the security block in `execute_sql_node`. -/
def securityMsg : String := "Only SELECT queries are allowed."

/-- `execute_sql_node` of `graph.py` (lines 165-197).  The returned `Bool`
records whether a database connection was opened (the `sqlite3.connect`
call is reached only past the security gate); the row formatting happens
inside the oracle, which hands back the serialized result string. -/
def execute_sql_node (dbExec : String → Except String String) (s : St) : St × Bool :=
  let query := s.sql_query
  if !(pyStartsWith (pyUpper query) "SELECT") then
    ({ s with error := some securityMsg, db_result := none }, false)
  else
    match dbExec query with
    | Except.ok resultStr => ({ s with db_result := some resultStr, error := none }, true)
    | Except.error e => ({ s with error := some e, db_result := none }, true)

/-- The post-processing of `repair_sql_node` (line 215): it strips code
fences but, unlike the generator, removes no "ite" and appends no LIMIT. -/
def cleanRepairSql (content : String) : String :=
  pyStrip (pyRemove (pyRemove content "```sql") "```")

/-- `repair_sql_node` of `graph.py` (lines 200-217). -/
def repair_sql_node (repairOut : String) (s : St) : St :=
  { s with sql_query := cleanRepairSql repairOut
           error := none
           retry_count := s.retry_count + 1 }

/-- `synthesize_node`: appends the synthesizer completion. -/
def synthesize_node (synthOut : String) (s : St) : St :=
  { s with messages := s.messages ++ [synthOut] }

/-- The fixed apology of `synthesize_failure_node`. -/
def failureMsg : String :=
  "I'm having trouble accessing the database right now. Please try again."

/-- `synthesize_failure_node` of `graph.py` (lines 277-279). -/
def synthesize_failure_node (s : St) : St :=
  { s with messages := s.messages ++ [failureMsg] }

/-- Python truthiness of `state.get("error")`: set and non-empty. -/
def errTruthy (s : St) : Bool :=
  match s.error with
  | some e => !(e == "")
  | none => false

/-- `route_intent` of `graph.py` (lines 282-287): `search` goes to the
generator, everything else (including the safety catch) replies directly. -/
def route_intent (s : St) : Node :=
  if s.intent == "search" then Node.generateSql else Node.directResponse

/-- `route_execution` of `graph.py` (lines 290-298). -/
def route_execution (s : St) : Node :=
  if s.sql_query == "CLARIFY" then Node.synthesize
  else if errTruthy s then
    if 2 ≤ s.retry_count then Node.synthesizeFailure else Node.repairSql
  else Node.synthesize

/-- One transition of the compiled graph (the `add_edge` /
`add_conditional_edges` wiring of `build_graph`, lines 300-325; note the
edge from `generate_sql` to `execute_sql` is unconditional). -/
def step (env : Env) : Node × St → Node × St
  | (Node.start, s) => (Node.classifyIntent, s)
  | (Node.classifyIntent, s) =>
    let s1 := classify_intent_node env.classOut s
    (route_intent s1, s1)
  | (Node.directResponse, s) => (Node.done, direct_response_node s)
  | (Node.generateSql, s) => (Node.executeSql, generate_sql_node env.genOut s)
  | (Node.executeSql, s) =>
    let s1 := (execute_sql_node env.dbExec s).1
    (route_execution s1, s1)
  | (Node.repairSql, s) => (Node.executeSql, repair_sql_node (env.repairOut s.retry_count) s)
  | (Node.synthesize, s) => (Node.done, synthesize_node env.synthOut s)
  | (Node.synthesizeFailure, s) => (Node.done, synthesize_failure_node s)
  | (Node.done, s) => (Node.done, s)

/-- `n` transitions of the graph. -/
def run (env : Env) : Nat → Node × St → Node × St
  | 0, p => p
  | n + 1, p => run env n (step env p)

/-- How many of the next `n` positions sit at `target` (counts node
invocations along a turn). -/
def visits (env : Env) (target : Node) : Nat → Node × St → Nat
  | 0, _ => 0
  | n + 1, p => (if p.1 = target then 1 else 0) + visits env target n (step env p)

/-- The queries that reach the database (pass the security gate of
`execute_sql_node`, so a connection is opened) within the next `n`
transitions. -/
def dbQueries (env : Env) : Nat → Node × St → List String
  | 0, _ => []
  | n + 1, p =>
    (if p.1 = Node.executeSql ∧ (execute_sql_node env.dbExec p.2).2 = true
      then [p.2.sql_query] else []) ++ dbQueries env n (step env p)

/-! ### Basic lemmas about the string model and the node functions -/

theorem containsSub_cons (c : Char) (rest pat : List Char) :
    containsSub (c :: rest) pat =
      (startsWithCh (c :: rest) pat || containsSub rest pat) := rfl

theorem containsSub_of_startsWith (s pat : List Char) (h : startsWithCh s pat = true) :
    containsSub s pat = true := by
  cases s with
  | nil => simpa [containsSub] using h
  | cons c rest => simp [containsSub_cons, h]

theorem startsWithCh_append_self (p r : List Char) : startsWithCh (p ++ r) p = true := by
  induction p with
  | nil => simp [startsWithCh]
  | cons c cs ih => simp [startsWithCh, ih]

theorem containsSub_append_right (a b pat : List Char) (h : containsSub b pat = true) :
    containsSub (a ++ b) pat = true := by
  induction a with
  | nil => simpa using h
  | cons c cs ih => simp [containsSub_cons, ih]

theorem strData_append (a b : String) : (a ++ b).data = a.data ++ b.data := by
  cases a; cases b; rfl

theorem strAppend_empty (a : String) : a ++ "" = a := by
  cases a with
  | mk l => exact congrArg String.mk (List.append_nil l)

/-- The executor never changes the query: it only fills `db_result`/`error`. -/
theorem execute_fst_sql (db : String → Except String String) (s : St) :
    ((execute_sql_node db s).1).sql_query = s.sql_query := by
  unfold execute_sql_node
  dsimp only
  split
  · rfl
  · split <;> rfl

theorem execute_fst_retry (db : String → Except String String) (s : St) :
    ((execute_sql_node db s).1).retry_count = s.retry_count := by
  unfold execute_sql_node
  dsimp only
  split
  · rfl
  · split <;> rfl

theorem execute_fst_messages (db : String → Except String String) (s : St) :
    ((execute_sql_node db s).1).messages = s.messages := by
  unfold execute_sql_node
  dsimp only
  split
  · rfl
  · split <;> rfl

/-- A connection is opened exactly when the upper-cased query starts with
`SELECT` (the security gate of `execute_sql_node`). -/
theorem execute_opened_iff (db : String → Except String String) (s : St) :
    (execute_sql_node db s).2 = true ↔
      pyStartsWith (pyUpper s.sql_query) "SELECT" = true := by
  unfold execute_sql_node
  cases hb : pyStartsWith (pyUpper s.sql_query) "SELECT"
  · simp [hb]
  · cases hdb : db s.sql_query <;> simp [hb, hdb]

/-- Both branches of the generator reset the retry counter. -/
theorem generate_retry (g : String) (s : St) :
    (generate_sql_node g s).retry_count = 0 := by
  unfold generate_sql_node
  dsimp only
  split <;> rfl

theorem repair_retry (r : String) (s : St) :
    (repair_sql_node r s).retry_count = s.retry_count + 1 := rfl

/-- When the cleaned completion is the `CLARIFY` sentinel, the generator
stores exactly that sentinel. -/
theorem generate_clarify (g : String) (s : St) (h : cleanGenSql g = "CLARIFY") :
    (generate_sql_node g s).sql_query = "CLARIFY" := by
  unfold generate_sql_node
  rw [if_pos]
  simp [h]

/-- The generator's non-`CLARIFY` branch, written out. -/
theorem generate_not_clarify (g : String) (s : St) (hc : cleanGenSql g ≠ "CLARIFY") :
    generate_sql_node g s =
      (let isPag := pagSignal s.router_remarks
       let currentOffset :=
         if isPag && !(s.last_sql == "") then s.last_offset + s.last_limit else 0
       let sql1 := sliceFromSelect (cleanGenSql g)
       let sql2 :=
         if !(pyContains (pyUpper sql1) "LIMIT") then
           sql1 ++ limitClause isPag s.last_limit currentOffset
         else sql1
       let newLimit :=
         match limitScan (pyUpper sql2).data with
         | some n => n
         | none => s.last_limit
       { s with sql_query := sql2
                error := none
                retry_count := 0
                last_limit := newLimit
                last_offset := currentOffset
                last_sql := sql2 }) := by
  have hb : (cleanGenSql g == "CLARIFY") = false := by simp [hc]
  unfold generate_sql_node
  simp only [hb, Bool.false_eq_true, if_false]

/-! ### The retry-counter invariant and the execution-attempt bound -/

/-- The inductive invariant behind the retry ceiling: at `execute_sql` the
counter is at most 2, at `repair_sql` at most 1 (the router only enters the
repair node below the ceiling). -/
def Inv (p : Node × St) : Prop :=
  (p.1 = Node.executeSql → p.2.retry_count ≤ 2) ∧
  (p.1 = Node.repairSql → p.2.retry_count ≤ 1)

theorem inv_step (env : Env) : ∀ p : Node × St, Inv p → Inv (step env p) := by
  rintro ⟨n, s⟩ h
  cases n
  case start => simp [Inv, step]
  case classifyIntent =>
    simp only [step]
    unfold route_intent
    split <;> simp [Inv]
  case directResponse => simp [Inv, step]
  case generateSql =>
    refine ⟨fun _ => ?_, fun hh => by simp [step] at hh⟩
    simp only [step]
    rw [generate_retry]
    omega
  case executeSql =>
    have hr := execute_fst_retry env.dbExec s
    simp only [step]
    unfold route_execution
    rw [hr]
    split
    · simp [Inv]
    · split
      · split
        · simp [Inv]
        · refine ⟨fun hh => by simp at hh, fun _ => ?_⟩
          rw [hr]
          omega
      · simp [Inv]
  case repairSql =>
    obtain ⟨-, h2⟩ := h
    have hle : s.retry_count ≤ 1 := h2 rfl
    refine ⟨fun _ => ?_, fun hh => by simp [step] at hh⟩
    show (repair_sql_node (env.repairOut s.retry_count) s).retry_count ≤ 2
    rw [repair_retry]
    omega
  case synthesize => simp [Inv, step]
  case synthesizeFailure => simp [Inv, step]
  case done => simp [Inv, step]

theorem inv_run (env : Env) (n : Nat) (p : Node × St) (h : Inv p) :
    Inv (run env n p) := by
  induction n generalizing p with
  | zero => exact h
  | succ n ih => exact ih _ (inv_step env p h)

/-- Potential: an upper bound on how many more times the turn can sit at
`execute_sql` from a given position. -/
def phi : Node × St → Nat
  | (Node.start, _) => 3
  | (Node.classifyIntent, _) => 3
  | (Node.generateSql, _) => 3
  | (Node.executeSql, s) => if 2 ≤ s.retry_count then 1 else 3 - s.retry_count
  | (Node.repairSql, s) => if 1 ≤ s.retry_count then 1 else 2
  | _ => 0

theorem step_phi (env : Env) (p : Node × St) :
    (if p.1 = Node.executeSql then 1 else 0) + phi (step env p) ≤ phi p := by
  obtain ⟨n, s⟩ := p
  cases n
  case start => exact Nat.le_refl 3
  case classifyIntent =>
    show 0 + phi (route_intent (classify_intent_node env.classOut s),
      classify_intent_node env.classOut s) ≤ 3
    rw [Nat.zero_add]
    unfold route_intent
    split
    · exact Nat.le_refl 3
    · exact Nat.zero_le 3
  case directResponse => exact Nat.le_refl 0
  case generateSql =>
    show 0 + phi (Node.executeSql, generate_sql_node env.genOut s) ≤ 3
    rw [Nat.zero_add]
    show (if 2 ≤ (generate_sql_node env.genOut s).retry_count then 1
      else 3 - (generate_sql_node env.genOut s).retry_count) ≤ 3
    rw [generate_retry]
    simp
  case executeSql =>
    have hr := execute_fst_retry env.dbExec s
    show 1 + phi (route_execution (execute_sql_node env.dbExec s).1,
      (execute_sql_node env.dbExec s).1) ≤
      if 2 ≤ s.retry_count then 1 else 3 - s.retry_count
    unfold route_execution
    split
    · show 1 + 0 ≤ if 2 ≤ s.retry_count then 1 else 3 - s.retry_count
      split_ifs <;> omega
    · split
      · split
        · rename_i hge
          rw [hr] at hge
          show 1 + 0 ≤ if 2 ≤ s.retry_count then 1 else 3 - s.retry_count
          rw [if_pos hge]
        · rename_i hlt
          rw [hr] at hlt
          show 1 + (if 1 ≤ ((execute_sql_node env.dbExec s).1).retry_count
              then 1 else 2) ≤
            if 2 ≤ s.retry_count then 1 else 3 - s.retry_count
          rw [hr]
          split_ifs <;> omega
      · show 1 + 0 ≤ if 2 ≤ s.retry_count then 1 else 3 - s.retry_count
        split_ifs <;> omega
  case repairSql =>
    show 0 + phi (Node.executeSql, repair_sql_node (env.repairOut s.retry_count) s) ≤
      if 1 ≤ s.retry_count then 1 else 2
    rw [Nat.zero_add]
    show (if 2 ≤ (repair_sql_node (env.repairOut s.retry_count) s).retry_count then 1
      else 3 - (repair_sql_node (env.repairOut s.retry_count) s).retry_count) ≤
      if 1 ≤ s.retry_count then 1 else 2
    rw [repair_retry]
    split_ifs <;> omega
  case synthesize => exact Nat.le_refl 0
  case synthesizeFailure => exact Nat.le_refl 0
  case done => exact Nat.le_refl 0

theorem visits_le_phi (env : Env) : ∀ (n : Nat) (p : Node × St),
    visits env Node.executeSql n p ≤ phi p := by
  intro n
  induction n with
  | zero => intro p; simp [visits]
  | succ n ih =>
    intro p
    have h1 : visits env Node.executeSql (n + 1) p =
        (if p.1 = Node.executeSql then 1 else 0) +
          visits env Node.executeSql n (step env p) := rfl
    rw [h1]
    exact le_trans (Nat.add_le_add_left (ih _) _) (step_phi env p)

/-! ### Trace bookkeeping lemmas -/

theorem run_add (env : Env) (m n : Nat) (p : Node × St) :
    run env (m + n) p = run env n (run env m p) := by
  induction m generalizing p with
  | zero => rw [Nat.zero_add]; rfl
  | succ m ih =>
    have e : m + 1 + n = (m + n) + 1 := by omega
    rw [e]
    exact ih (step env p)

theorem visits_add (env : Env) (t : Node) (m n : Nat) (p : Node × St) :
    visits env t (m + n) p = visits env t m p + visits env t n (run env m p) := by
  induction m generalizing p with
  | zero => simp [visits, run]
  | succ m ih =>
    have e : m + 1 + n = (m + n) + 1 := by omega
    rw [e]
    show (if p.1 = t then 1 else 0) + visits env t (m + n) (step env p) = _
    rw [ih (step env p)]
    have hrw : run env (m + 1) p = run env m (step env p) := rfl
    rw [hrw]
    show _ = (if p.1 = t then 1 else 0) + visits env t m (step env p) +
      visits env t n (run env m (step env p))
    omega

theorem dbQueries_add (env : Env) (m n : Nat) (p : Node × St) :
    dbQueries env (m + n) p = dbQueries env m p ++ dbQueries env n (run env m p) := by
  induction m generalizing p with
  | zero => simp [dbQueries, run]
  | succ m ih =>
    have e : m + 1 + n = (m + n) + 1 := by omega
    rw [e]
    show (if p.1 = Node.executeSql ∧ (execute_sql_node env.dbExec p.2).2 = true
        then [p.2.sql_query] else []) ++ dbQueries env (m + n) (step env p) = _
    rw [ih (step env p)]
    have hrw : run env (m + 1) p = run env m (step env p) := rfl
    rw [hrw]
    show _ = (if p.1 = Node.executeSql ∧ (execute_sql_node env.dbExec p.2).2 = true
        then [p.2.sql_query] else []) ++ dbQueries env m (step env p) ++
      dbQueries env n (run env m (step env p))
    rw [List.append_assoc]

theorem visits_done (env : Env) (t : Node) (ht : t ≠ Node.done) :
    ∀ (n : Nat) (s : St), visits env t n (Node.done, s) = 0 := by
  intro n
  induction n with
  | zero => intro s; rfl
  | succ n ih =>
    intro s
    show (if Node.done = t then 1 else 0) + visits env t n (step env (Node.done, s)) = 0
    rw [if_neg (Ne.symm ht), Nat.zero_add]
    exact ih s

theorem dbQueries_done (env : Env) :
    ∀ (n : Nat) (s : St), dbQueries env n (Node.done, s) = [] := by
  intro n
  induction n with
  | zero => intro s; rfl
  | succ n ih =>
    intro s
    show (if Node.done = Node.executeSql ∧ _ then _ else []) ++
      dbQueries env n (step env (Node.done, s)) = []
    rw [if_neg (by simp)]
    exact ih s

/-- Every query that opens a database connection along any trace passes the
SELECT gate. -/
theorem dbQueries_select (env : Env) : ∀ (n : Nat) (p : Node × St),
    ∀ q ∈ dbQueries env n p, pyStartsWith (pyUpper q) "SELECT" = true := by
  intro n
  induction n with
  | zero => intro p q hq; simp [dbQueries] at hq
  | succ n ih =>
    intro p q hq
    rw [show dbQueries env (n + 1) p =
      (if p.1 = Node.executeSql ∧ (execute_sql_node env.dbExec p.2).2 = true
        then [p.2.sql_query] else []) ++ dbQueries env n (step env p) from rfl] at hq
    rcases List.mem_append.1 hq with hq | hq
    · by_cases hc : p.1 = Node.executeSql ∧ (execute_sql_node env.dbExec p.2).2 = true
      · rw [if_pos hc] at hq
        rw [List.mem_singleton.1 hq]
        exact (execute_opened_iff env.dbExec p.2).1 hc.2
      · rw [if_neg hc] at hq
        simp at hq
    · exact ih _ q hq

/-! ### The appended LIMIT clause always contains the keyword -/

theorem strExt (a b : String) (h : a.data = b.data) : a = b := by
  cases a; cases b; cases h; rfl

theorem limitClause_data (b : Bool) (l o : Nat) :
    (limitClause b l o).data = " LIMIT ".data ++
      (if b then (toString l ++ " OFFSET " ++ toString o).data
       else (toString l).data) := by
  cases b
  · rfl
  · show (" LIMIT " ++ toString l ++ " OFFSET " ++ toString o).data =
      " LIMIT ".data ++ (toString l ++ " OFFSET " ++ toString o).data
    simp [strData_append, List.append_assoc]

theorem contains_upper_append_limitClause (a : String) (b : Bool) (l o : Nat) :
    pyContains (pyUpper (a ++ limitClause b l o)) "LIMIT" = true := by
  unfold pyContains pyUpper upperChars
  rw [strData_append, limitClause_data, List.map_append, List.map_append]
  apply containsSub_append_right
  have e : List.map Char.toUpper (" LIMIT ".data) = " LIMIT ".data := by decide
  rw [e]
  show containsSub (' ' :: ("LIMIT".data ++ (' ' ::
    List.map Char.toUpper (if b then (toString l ++ " OFFSET " ++ toString o).data
      else (toString l).data)))) ("LIMIT".data) = true
  rw [containsSub_cons]
  rw [containsSub_of_startsWith _ _ (startsWithCh_append_self _ _), Bool.or_true]

/-! ### Classifier lemmas -/

/-- Whether the (stripped, upper-cased) completion starts with one of the
six prefixes `classify_intent_node` recognizes. -/
def recognizedToken (ru : String) : Bool :=
  pyStartsWith ru "GREETING" || pyStartsWith ru "HANDOFF" ||
  pyStartsWith ru "UNCLEAR" || pyStartsWith ru "REJECT" ||
  pyStartsWith ru "PAGINATION" || pyStartsWith ru "SEARCH"

/-- The completion the C9 scenario fixes, parsed by the REJECT branch. -/
theorem classify_reject_out_of_scope (s : St) :
    classify_intent_node "REJECT: out of scope" s =
      { s with intent := "direct", db_result := some "out of scope" } := rfl

/-! ### Concrete single-turn environments used by witnesses and
counterexamples -/

/-- A turn in which the SQL generator answers with the bare `CLARIFY`
sentinel. -/
def envC3 : Env :=
  { classOut := "SEARCH | hospitals near me"
    genOut := "CLARIFY"
    repairOut := fun _ => ""
    dbExec := fun _ => Except.ok "rows"
    synthOut := "Which city are you in?" }

/-- A turn in which every database call fails and the repair model answers
with a SELECT that has no LIMIT clause. -/
def envC5 : Env :=
  { classOut := "SEARCH | find hospitals"
    genOut := "SELECT * FROM hospitals"
    repairOut := fun _ => "SELECT name FROM hospitals"
    dbExec := fun _ => Except.error "no such table: hospitals"
    synthOut := "ok" }

/-- An ordinary failing-database turn used by the C2 witness. -/
def envW : Env :=
  { classOut := "SEARCH | clinics in Pune"
    genOut := "SELECT * FROM hospitals"
    repairOut := fun _ => "SELECT 1"
    dbExec := fun _ => Except.error "disk error"
    synthOut := "done" }

/-! ### The claims -/

/-- C1: the SQL executor's security gate.  A database connection is opened
exactly when the upper-cased query starts with `SELECT`; when it does not,
the node returns the fixed security error with no connection; and along any
trace, every query that reaches the database passes that gate. -/
theorem C1_select_safety_gate (db : String → Except String String) (s : St)
    (env : Env) (n : Nat) (p : Node × St) :
    ((execute_sql_node db s).2 = true ↔
      pyStartsWith (pyUpper s.sql_query) "SELECT" = true) ∧
    (pyStartsWith (pyUpper s.sql_query) "SELECT" = false →
      execute_sql_node db s =
        ({ s with error := some securityMsg, db_result := none }, false)) ∧
    (∀ q ∈ dbQueries env n p, pyStartsWith (pyUpper q) "SELECT" = true) := by
  refine ⟨execute_opened_iff db s, ?_, dbQueries_select env n p⟩
  intro hb
  unfold execute_sql_node
  simp [hb]

theorem C1_select_safety_gate_witness :
    pyStartsWith (pyUpper "DROP TABLE hospitals") "SELECT" = false ∧
    execute_sql_node (fun _ => Except.ok "rows")
        { st0 with sql_query := "DROP TABLE hospitals" } =
      ({ st0 with sql_query := "DROP TABLE hospitals"
                  error := some securityMsg
                  db_result := none }, false) :=
  ⟨by decide,
    (C1_select_safety_gate (fun _ => Except.ok "rows")
      { st0 with sql_query := "DROP TABLE hospitals" } envC3 0 (Node.start, st0)).2.1
      (by decide)⟩

/-- C2: in every reachable position of a turn (started at START in any
state), the EXECUTE_SQL node observes `retry_count ≤ 2`; and when execution
errors with `retry_count ≥ 2` the router never picks REPAIR_SQL — for a
real query (not the `CLARIFY` sentinel, which `route_execution` checks
first) it goes to SYNTHESIZE_FAILURE. -/
theorem C2_retry_ceiling (env : Env) (n : Nat) (s0 s : St) :
    ((run env n (Node.start, s0)).1 = Node.executeSql →
      (run env n (Node.start, s0)).2.retry_count ≤ 2) ∧
    (errTruthy (execute_sql_node env.dbExec s).1 = true → 2 ≤ s.retry_count →
      (step env (Node.executeSql, s)).1 ≠ Node.repairSql) ∧
    (errTruthy (execute_sql_node env.dbExec s).1 = true → 2 ≤ s.retry_count →
      s.sql_query ≠ "CLARIFY" →
      step env (Node.executeSql, s) =
        (Node.synthesizeFailure, (execute_sql_node env.dbExec s).1)) := by
  have hs := execute_fst_sql env.dbExec s
  have hrc := execute_fst_retry env.dbExec s
  refine ⟨?_, ?_, ?_⟩
  · intro hx
    exact (inv_run env n (Node.start, s0)
      ⟨fun hh => by simp at hh, fun hh => by simp at hh⟩).1 hx
  · intro he hr
    show route_execution (execute_sql_node env.dbExec s).1 ≠ Node.repairSql
    by_cases hcl : s.sql_query = "CLARIFY"
    · have hb : (s.sql_query == "CLARIFY") = true := by simp [hcl]
      simp [route_execution, hs, hb]
    · have hb : (s.sql_query == "CLARIFY") = false := by simp [hcl]
      simp [route_execution, hs, hrc, he, hb, hr]
  · intro he hr hc
    have hb : (s.sql_query == "CLARIFY") = false := by simp [hc]
    have hroute : route_execution (execute_sql_node env.dbExec s).1 =
        Node.synthesizeFailure := by
      unfold route_execution
      rw [hs, hb, hrc, he]
      simp [hr]
    show (route_execution (execute_sql_node env.dbExec s).1,
      (execute_sql_node env.dbExec s).1) = _
    rw [hroute]

theorem C2_retry_ceiling_witness :
    (run envW 3 (Node.start, st0)).1 = Node.executeSql ∧
    (run envW 3 (Node.start, st0)).2.retry_count ≤ 2 ∧
    step envW (Node.executeSql, { st0 with sql_query := "SELECT 1", retry_count := 2 }) =
      (Node.synthesizeFailure,
        (execute_sql_node envW.dbExec
          { st0 with sql_query := "SELECT 1", retry_count := 2 }).1) :=
  ⟨by decide,
   (C2_retry_ceiling envW 3 st0 st0).1 (by decide),
   (C2_retry_ceiling envW 3 st0
      { st0 with sql_query := "SELECT 1", retry_count := 2 }).2.2
     (by decide) (by decide) (by decide)⟩

/-- C3 counterexample: in a turn whose SQL generator answers `CLARIFY`,
the EXECUTE_SQL node *is* invoked (the edge out of the generator is
unconditional), carrying the sentinel as its query — the claim says the
node is never invoked in such a turn. -/
theorem C3_counterexample_execute_invoked :
    cleanGenSql envC3.genOut = "CLARIFY" ∧
    (run envC3 3 (Node.start, st0)).1 = Node.executeSql ∧
    (run envC3 3 (Node.start, st0)).2.sql_query = "CLARIFY" ∧
    visits envC3 Node.executeSql 6 (Node.start, st0) = 1 := by decide

/-- C3 (amended): the `CLARIFY` sentinel does flow through the EXECUTE_SQL
node, but that node opens no database connection for it (the sentinel fails
the SELECT gate) and `route_execution` — which tests the sentinel before
the error field — then sends the turn to SYNTHESIZE, so execution is
short-circuited in effect though the node itself runs. -/
theorem C3_amended_clarify_short_circuit (env : Env) (s : St)
    (h : cleanGenSql env.genOut = "CLARIFY") :
    step env (Node.generateSql, s) =
      (Node.executeSql, generate_sql_node env.genOut s) ∧
    (execute_sql_node env.dbExec (generate_sql_node env.genOut s)).2 = false ∧
    step env (Node.executeSql, generate_sql_node env.genOut s) =
      (Node.synthesize,
        (execute_sql_node env.dbExec (generate_sql_node env.genOut s)).1) := by
  have h1 := generate_clarify env.genOut s h
  refine ⟨rfl, ?_, ?_⟩
  · have hiff := execute_opened_iff env.dbExec (generate_sql_node env.genOut s)
    rw [h1] at hiff
    have hfalse : pyStartsWith (pyUpper "CLARIFY") "SELECT" = false := by decide
    cases ho : (execute_sql_node env.dbExec (generate_sql_node env.genOut s)).2
    · rfl
    · have := hiff.1 ho
      rw [hfalse] at this
      exact Bool.noConfusion this
  · have hs := execute_fst_sql env.dbExec (generate_sql_node env.genOut s)
    have hroute : route_execution
        (execute_sql_node env.dbExec (generate_sql_node env.genOut s)).1 =
        Node.synthesize := by
      unfold route_execution
      rw [hs, h1]
      simp
    show (route_execution
        (execute_sql_node env.dbExec (generate_sql_node env.genOut s)).1,
      (execute_sql_node env.dbExec (generate_sql_node env.genOut s)).1) = _
    rw [hroute]

theorem C3_amended_clarify_short_circuit_witness :
    (execute_sql_node envC3.dbExec (generate_sql_node envC3.genOut st0)).2 = false ∧
    step envC3 (Node.executeSql, generate_sql_node envC3.genOut st0) =
      (Node.synthesize,
        (execute_sql_node envC3.dbExec (generate_sql_node envC3.genOut st0)).1) :=
  ⟨(C3_amended_clarify_short_circuit envC3 st0 (by decide)).2.1,
   (C3_amended_clarify_short_circuit envC3 st0 (by decide)).2.2⟩

/-- C4 counterexample: a query produced by the REPAIR node with no LIMIT
clause reaches the database (the claim says every query reaching execution
carries one). -/
theorem C4_counterexample_repair_no_limit :
    "SELECT name FROM hospitals" ∈ dbQueries envC5 12 (Node.start, st0) ∧
    pyContains (pyUpper "SELECT name FROM hospitals") "LIMIT" = false := by decide

/-- C4 (amended): every query the GENERATOR stores for execution (the
non-`CLARIFY` case) contains the LIMIT keyword — appended deterministically
from the computed limit/offset when the model output lacks it.  (Queries
from the repair node are not LIMIT-checked; see the counterexample.) -/
theorem C4_amended_generator_enforces_limit (g : String) (s : St)
    (h : (generate_sql_node g s).sql_query ≠ "CLARIFY") :
    pyContains (pyUpper (generate_sql_node g s).sql_query) "LIMIT" = true := by
  by_cases hc : cleanGenSql g = "CLARIFY"
  · exact absurd (generate_clarify g s hc) h
  · rw [generate_not_clarify g s hc]
    dsimp only
    by_cases hl : pyContains (pyUpper (sliceFromSelect (cleanGenSql g))) "LIMIT" = true
    · simp [hl]
    · have hl' : pyContains (pyUpper (sliceFromSelect (cleanGenSql g))) "LIMIT" = false :=
        by simpa using hl
      simp only [hl', Bool.not_false, if_true]
      exact contains_upper_append_limitClause _ _ _ _

theorem C4_amended_generator_enforces_limit_witness :
    (generate_sql_node "SELECT * FROM hospitals" st0).sql_query =
      "SELECT * FROM hospitals LIMIT 5" ∧
    pyContains (pyUpper (generate_sql_node "SELECT * FROM hospitals" st0).sql_query)
      "LIMIT" = true :=
  ⟨by decide,
   C4_amended_generator_enforces_limit "SELECT * FROM hospitals" st0 (by decide)⟩

/-- C5 counterexample: with a database that always fails, one turn makes
THREE execution attempts (retry counts 0, 1 and 2) before terminating with
the fixed failure message — the claim says a third attempt never occurs. -/
theorem C5_counterexample_third_attempt :
    visits envC5 Node.executeSql 12 (Node.start, st0) = 3 ∧
    (run envC5 9 (Node.start, st0)).1 = Node.done ∧
    (run envC5 9 (Node.start, st0)).2.messages = [failureMsg] := by decide

/-- C5 (amended): the repair loop is bounded by THREE execution attempts
per turn (two repairs); when execution fails on the third attempt
(`retry_count = 2`), the turn terminates two steps later with the fixed
failure message appended and no further attempt. -/
theorem C5_amended_attempt_bound (env : Env) (n : Nat) (s0 s : St) :
    visits env Node.executeSql n (Node.start, s0) ≤ 3 ∧
    (s.sql_query ≠ "CLARIFY" → errTruthy (execute_sql_node env.dbExec s).1 = true →
      s.retry_count = 2 →
      run env 2 (Node.executeSql, s) =
        (Node.done, { (execute_sql_node env.dbExec s).1 with
            messages := s.messages ++ [failureMsg] })) := by
  constructor
  · exact le_trans (visits_le_phi env n (Node.start, s0)) (Nat.le_refl 3)
  · intro hc he hr
    have hs := execute_fst_sql env.dbExec s
    have hrc := execute_fst_retry env.dbExec s
    have hm := execute_fst_messages env.dbExec s
    have hb : (s.sql_query == "CLARIFY") = false := by simp [hc]
    have hroute : route_execution (execute_sql_node env.dbExec s).1 =
        Node.synthesizeFailure := by
      unfold route_execution
      rw [hs, hb, hrc, he]
      simp [hr]
    have hstep1 : step env (Node.executeSql, s) =
        (Node.synthesizeFailure, (execute_sql_node env.dbExec s).1) := by
      show (route_execution (execute_sql_node env.dbExec s).1,
        (execute_sql_node env.dbExec s).1) = _
      rw [hroute]
    show run env 1 (step env (Node.executeSql, s)) = _
    rw [hstep1]
    show (Node.done, synthesize_failure_node (execute_sql_node env.dbExec s).1) = _
    unfold synthesize_failure_node
    rw [hm]

theorem C5_amended_attempt_bound_witness :
    visits envC5 Node.executeSql 12 (Node.start, st0) ≤ 3 ∧
    run envC5 2 (Node.executeSql, { st0 with sql_query := "SELECT 1", retry_count := 2 }) =
      (Node.done, { (execute_sql_node envC5.dbExec
          { st0 with sql_query := "SELECT 1", retry_count := 2 }).1 with
        messages := [failureMsg] }) :=
  ⟨(C5_amended_attempt_bound envC5 12 st0 st0).1,
   (C5_amended_attempt_bound envC5 12 st0
      { st0 with sql_query := "SELECT 1", retry_count := 2 }).2
     (by decide) (by decide) rfl⟩

/-- C6: on a pagination continuation (PAGINATION signal and a non-empty
`last_sql`), the stored `last_offset` becomes the previous
`last_offset + last_limit` and — when the model output lacks a LIMIT — the
enforced clause is exactly ` LIMIT last_limit OFFSET (last_offset+last_limit)`;
on every other (non-pagination) generation turn the stored offset resets
to 0. -/
theorem C6_pagination_offset (g : String) (s : St) (hc : cleanGenSql g ≠ "CLARIFY") :
    ((pagSignal s.router_remarks = true ∧ s.last_sql ≠ "") →
      (generate_sql_node g s).last_offset = s.last_offset + s.last_limit ∧
      (pyContains (pyUpper (sliceFromSelect (cleanGenSql g))) "LIMIT" = false →
        (generate_sql_node g s).sql_query =
          sliceFromSelect (cleanGenSql g) ++
            limitClause true s.last_limit (s.last_offset + s.last_limit))) ∧
    (¬(pagSignal s.router_remarks = true ∧ s.last_sql ≠ "") →
      (generate_sql_node g s).last_offset = 0) := by
  rw [generate_not_clarify g s hc]
  dsimp only
  constructor
  · rintro ⟨hp, hl⟩
    have hb : (s.last_sql == "") = false := by simp [hl]
    constructor
    · simp [hp, hb]
    · intro hlim
      simp [hp, hb, hlim]
  · intro hn
    have hb : (pagSignal s.router_remarks && !(s.last_sql == "")) = false := by
      by_cases hp : pagSignal s.router_remarks = true
      · by_cases he : s.last_sql = ""
        · simp [hp, he]
        · exact absurd ⟨hp, he⟩ hn
      · have hp' : pagSignal s.router_remarks = false := by simpa using hp
        simp [hp']
    simp [hb]

/-- The state of the C6 example: a pagination turn whose previous page used
`LIMIT 5 OFFSET 0`. -/
def sPag : St :=
  { st0 with router_remarks := "PAGINATION"
             last_sql := "SELECT * FROM hospitals LIMIT 5"
             last_limit := 5
             last_offset := 0 }

theorem C6_pagination_offset_witness :
    (generate_sql_node "SELECT * FROM hospitals" sPag).last_offset = 0 + 5 ∧
    (generate_sql_node "SELECT * FROM hospitals" sPag).sql_query =
      "SELECT * FROM hospitals LIMIT 5 OFFSET 5" ∧
    (generate_sql_node "SELECT * FROM hospitals"
        { generate_sql_node "SELECT * FROM hospitals" sPag with
            router_remarks := "PAGINATION" }).last_offset = 10 ∧
    (generate_sql_node "SELECT * FROM hospitals"
        { generate_sql_node "SELECT * FROM hospitals" sPag with
            router_remarks := "PAGINATION" }).sql_query =
      "SELECT * FROM hospitals LIMIT 5 OFFSET 10" :=
  ⟨((C6_pagination_offset "SELECT * FROM hospitals" sPag (by decide)).1
      ⟨by decide, by decide⟩).1,
   by decide, by decide, by decide⟩

/-- C7: the pagination branch of the generator is taken only when the
PAGINATION signal is present AND a prior query exists: with the signal but
an empty `last_sql` (and likewise without the signal) the turn falls
through to the fresh-search branch at offset 0. -/
theorem C7_pagination_requires_prior (g : String) (s : St)
    (hc : cleanGenSql g ≠ "CLARIFY") :
    (pagSignal s.router_remarks = true → s.last_sql ≠ "" →
      (generate_sql_node g s).last_offset = s.last_offset + s.last_limit) ∧
    (pagSignal s.router_remarks = true → s.last_sql = "" →
      (generate_sql_node g s).last_offset = 0) ∧
    (pagSignal s.router_remarks = false →
      (generate_sql_node g s).last_offset = 0) := by
  rw [generate_not_clarify g s hc]
  dsimp only
  refine ⟨?_, ?_, ?_⟩
  · intro hp hl
    have hb : (s.last_sql == "") = false := by simp [hl]
    simp [hp, hb]
  · intro hp hl
    simp [hp, hl]
  · intro hp
    simp [hp]

theorem C7_pagination_requires_prior_witness :
    pagSignal "PAGINATION" = true ∧
    (generate_sql_node "SELECT * FROM hospitals"
      { st0 with router_remarks := "PAGINATION" }).last_offset = 0 :=
  ⟨by decide,
   (C7_pagination_requires_prior "SELECT * FROM hospitals"
      { st0 with router_remarks := "PAGINATION" } (by decide)).2.1 (by decide) rfl⟩

/-- C8: a classifier completion matching none of the six recognized
prefixes yields intent `direct` with the fixed clarification reply — never
intent `search`, and no error field is touched. -/
theorem C8_unrecognized_fallback (c : String) (s : St)
    (h : recognizedToken (pyUpper (pyStrip c)) = false) :
    classify_intent_node c s =
      { s with intent := "direct", db_result := some fallbackReply } ∧
    (classify_intent_node c s).intent ≠ "search" := by
  unfold recognizedToken at h
  simp only [Bool.or_eq_false_iff] at h
  obtain ⟨⟨⟨⟨⟨h1, h2⟩, h3⟩, h4⟩, h5⟩, h6⟩ := h
  have hmain : classify_intent_node c s =
      { s with intent := "direct", db_result := some fallbackReply } := by
    unfold classify_intent_node
    simp [h1, h2, h3, h4, h5, h6]
  refine ⟨hmain, ?_⟩
  rw [hmain]
  show ("direct" : String) ≠ "search"
  decide

theorem C8_unrecognized_fallback_witness :
    recognizedToken (pyUpper (pyStrip "tell me a joke")) = false ∧
    classify_intent_node "tell me a joke" st0 =
      { st0 with intent := "direct", db_result := some fallbackReply } :=
  ⟨by decide, (C8_unrecognized_fallback "tell me a joke" st0 (by decide)).1⟩

/-- C9: a classifier completion of exactly `"REJECT: out of scope"` lets
the turn take the DIRECT_RESPONSE path, append exactly `"out of scope"` as
the assistant reply, and terminate in three steps — no SQL generation,
database execution or repair activity occurs in the turn. -/
theorem C9_reject_out_of_scope (env : Env) (s0 : St) (n : Nat)
    (h : env.classOut = "REJECT: out of scope") :
    run env 3 (Node.start, s0) =
      (Node.done, { s0 with intent := "direct"
                            db_result := some "out of scope"
                            messages := s0.messages ++ ["out of scope"] }) ∧
    visits env Node.executeSql n (Node.start, s0) = 0 ∧
    visits env Node.repairSql n (Node.start, s0) = 0 ∧
    dbQueries env n (Node.start, s0) = [] := by
  obtain ⟨co, go, ro, db, so⟩ := env
  dsimp only at h
  subst h
  have hrun : run ⟨"REJECT: out of scope", go, ro, db, so⟩ 3 (Node.start, s0) =
      (Node.done, { s0 with intent := "direct"
                            db_result := some "out of scope"
                            messages := s0.messages ++ ["out of scope"] }) := rfl
  refine ⟨hrun, ?_, ?_, ?_⟩
  · rcases Nat.lt_or_ge n 4 with hn | hn
    · interval_cases n <;> rfl
    · obtain ⟨k, rfl⟩ : ∃ k, n = 3 + k := ⟨n - 3, by omega⟩
      rw [visits_add, hrun, visits_done _ _ (by decide)]
      rfl
  · rcases Nat.lt_or_ge n 4 with hn | hn
    · interval_cases n <;> rfl
    · obtain ⟨k, rfl⟩ : ∃ k, n = 3 + k := ⟨n - 3, by omega⟩
      rw [visits_add, hrun, visits_done _ _ (by decide)]
      rfl
  · rcases Nat.lt_or_ge n 4 with hn | hn
    · interval_cases n <;> rfl
    · obtain ⟨k, rfl⟩ : ∃ k, n = 3 + k := ⟨n - 3, by omega⟩
      rw [dbQueries_add, hrun, dbQueries_done]
      rfl

/-- The C9 scenario as a concrete environment. -/
def envC9 : Env :=
  { classOut := "REJECT: out of scope"
    genOut := ""
    repairOut := fun _ => ""
    dbExec := fun _ => Except.ok ""
    synthOut := "" }

theorem C9_reject_out_of_scope_witness :
    run envC9 3 (Node.start, st0) =
      (Node.done, { st0 with intent := "direct"
                             db_result := some "out of scope"
                             messages := ["out of scope"] }) ∧
    visits envC9 Node.executeSql 10 (Node.start, st0) = 0 ∧
    visits envC9 Node.repairSql 10 (Node.start, st0) = 0 ∧
    dbQueries envC9 10 (Node.start, st0) = [] :=
  ⟨(C9_reject_out_of_scope envC9 st0 10 rfl).1,
   (C9_reject_out_of_scope envC9 st0 10 rfl).2.1,
   (C9_reject_out_of_scope envC9 st0 10 rfl).2.2.1,
   (C9_reject_out_of_scope envC9 st0 10 rfl).2.2.2⟩

/-- C10 (implicit): the generator's post-processing deletes every
occurrence of the substring "ite" (besides the code fences) before the
LIMIT check and the pagination-state update, and the query it stores as
`last_sql` is the query it executes — the ite-stripped, SELECT-sliced text
plus at most an appended LIMIT clause, so a completion containing "ite"
is stored and executed with those characters removed. -/
theorem C10_ite_removal (g : String) (s : St) (hc : cleanGenSql g ≠ "CLARIFY") :
    cleanGenSql g =
      pyStrip (pyRemove (pyRemove (pyRemove g "```sql") "```") "ite") ∧
    (generate_sql_node g s).last_sql = (generate_sql_node g s).sql_query ∧
    ∃ tail : String,
      (generate_sql_node g s).sql_query = sliceFromSelect (cleanGenSql g) ++ tail := by
  refine ⟨rfl, ?_, ?_⟩
  · rw [generate_not_clarify g s hc]
  · rw [generate_not_clarify g s hc]
    dsimp only
    by_cases hl : pyContains (pyUpper (sliceFromSelect (cleanGenSql g))) "LIMIT" = true
    · refine ⟨"", ?_⟩
      rw [strAppend_empty]
      simp [hl]
    · have hl' : pyContains (pyUpper (sliceFromSelect (cleanGenSql g))) "LIMIT" = false :=
        by simpa using hl
      refine ⟨limitClause (pagSignal s.router_remarks) s.last_limit
        (if pagSignal s.router_remarks && !(s.last_sql == "")
          then s.last_offset + s.last_limit else 0), ?_⟩
      simp [hl']

/-- A model completion whose SQL contains "ite" inside an identifier. -/
def gW : String := "SELECT * FROM hospitals WHERE CITY LIKE %Whitefield% LIMIT 5"

theorem C10_ite_removal_witness :
    pyContains gW "ite" = true ∧
    (generate_sql_node gW st0).sql_query =
      "SELECT * FROM hospitals WHERE CITY LIKE %Whfield% LIMIT 5" ∧
    (generate_sql_node gW st0).sql_query ≠ gW ∧
    (generate_sql_node gW st0).last_sql = (generate_sql_node gW st0).sql_query :=
  ⟨by decide, by decide, by decide, (C10_ite_removal gW st0 (by decide)).2.1⟩

end HospitalAgent
